import Mathlib

/-!
Shallow embedding of the fridge-app-backend data-access layer
(`fridge_app_backend/orm/` and the inventory routes), for checking the
specification's claims about the CRUD engine against the source.

Python attribute values are modelled by `Value` (ints for integers and
datetimes, strings, and `NULL`/`None`).  A database state holds the three
tables; dictionaries (`model_dump` results, update payloads, constructor
kwargs) are association lists `List (String × Value)`.
-/

set_option autoImplicit false

namespace FridgeApp

/-- Dynamic value: Python scalar stored in an ORM attribute or a dict.
Datetimes are modelled as integers (a timestamp), `None`/SQL NULL as
`vNone`. -/
inductive Value where
  | vInt (i : Int)
  | vStr (s : String)
  | vNone
  deriving Repr, DecidableEq

/-- A row of the `product_type` or `product_location` lookup tables
(`db_models.ProductType` / `db_models.ProductLocation`): a surrogate
integer key and a unique name. -/
structure LookupRow where
  id : Int
  name : String
  deriving Repr, DecidableEq

/-- A row of the `product` table, with exactly the mapped columns declared
in `db_models.Product`: `id`, `name`, `description`, `quantity`, `unit`,
`added_date`, `expiration_date`, `product_type_id`, `product_location_id`.
Note the date columns are `added_date` / `expiration_date` (both nullable);
the model declares no `creation_date` or `expiry_date` column. -/
structure ProductRow where
  id : Value
  name : Value
  description : Value
  quantity : Value
  unit : Value
  added_date : Value
  expiration_date : Value
  product_type_id : Value
  product_location_id : Value
  deriving Repr, DecidableEq

/-- The relational store: the three tables of §3 plus the autoincrement
counter for the product surrogate key. -/
structure DBState where
  productTypes : List LookupRow
  productLocations : List LookupRow
  products : List ProductRow
  nextProductId : Int
  deriving Repr, DecidableEq

/-- Attribute names of the `Product` declarative class: the mapped columns
plus the two relationship attributes `product_type` and `product_location`.
`hasattr(Product, a)` / `hasattr(db_obj, a)` is membership in this list. -/
def productMappedAttrNames : List String :=
  ["id", "name", "description", "quantity", "unit", "added_date", "expiration_date",
   "product_type_id", "product_type", "product_location_id", "product_location"]

/-- Column names of the `product` table (the persisted fields of
`ProductRow`). -/
def productColumnNames : List String :=
  ["id", "name", "description", "quantity", "unit", "added_date", "expiration_date",
   "product_type_id", "product_location_id"]

/-- Embedding of `hasattr(self.model, a)` / `hasattr(db_obj, a)` for the
`Product` model. -/
def productHasAttr (a : String) : Bool :=
  productMappedAttrNames.contains a

/-- Embedding of `getattr(db_obj, f)` restricted to persisted columns;
`none` for a name that is not a column. -/
def productGetAttr (r : ProductRow) (f : String) : Option Value :=
  if f = "id" then some r.id
  else if f = "name" then some r.name
  else if f = "description" then some r.description
  else if f = "quantity" then some r.quantity
  else if f = "unit" then some r.unit
  else if f = "added_date" then some r.added_date
  else if f = "expiration_date" then some r.expiration_date
  else if f = "product_type_id" then some r.product_type_id
  else if f = "product_location_id" then some r.product_location_id
  else none

/-- Embedding of `setattr(db_obj, f, v)` on the persisted row.  Assigning
to a name that is not a persisted column (in particular the relationship
slots `product_type` / `product_location`) leaves the persisted row
unchanged. -/
def productSetAttr (r : ProductRow) (f : String) (v : Value) : ProductRow :=
  if f = "id" then { r with id := v }
  else if f = "name" then { r with name := v }
  else if f = "description" then { r with description := v }
  else if f = "quantity" then { r with quantity := v }
  else if f = "unit" then { r with unit := v }
  else if f = "added_date" then { r with added_date := v }
  else if f = "expiration_date" then { r with expiration_date := v }
  else if f = "product_type_id" then { r with product_type_id := v }
  else if f = "product_location_id" then { r with product_location_id := v }
  else r

/-- Typed failures of the data-access layer, one constructor per exception
class in `exceptions.py` plus the builtin `TypeError` raised by the
declarative constructor and SQLAlchemy's `NoResultFound` /
`IntegrityError`.  `invalidExpiryDate` mirrors
`exceptions.InvalidExpiryDateError`; note that no code path in the source
constructs it. -/
inductive CrudError where
  | typeError (kw : String)
  | invalidProductType (v : Value)
  | invalidProductLocation (v : Value)
  | modelNotHavingAttribute (modelName attr : String)
  | noResultFound
  | integrityError (constraintName : String)
  | invalidExpiryDate (msg : String)
  deriving Repr, DecidableEq

/-- Dictionary lookup `d[k]` as used on `model_dump` results. -/
def lookupDict (d : List (String × Value)) (k : String) : Option Value :=
  (d.find? (fun kv => kv.1 == k)).map (fun kv => kv.2)

/-- Embedding of `session.scalar(select(T).where(T.name == v))` on a lookup
table: the id of the first row whose name equals `v`. -/
def findLookupId (rows : List LookupRow) (v : Value) : Option Int :=
  (rows.find? (fun t => Value.vStr t.name == v)).map (fun t => t.id)

/-- Embedding of `CRUDProduct._collect_scalar_values` (product_crud.py,
lines 19-51): map `product_name` to `name`, copy the scalar fields that are
present, then resolve `product_type` and `product_location` names to ids,
raising `InvalidProductTypeError` / `InvalidProductLocationError` (carrying
the offending value) when no row matches. -/
def collectScalarValues (objDict : List (String × Value)) (s : DBState) :
    Except CrudError (List (String × Value)) := do
  let base :=
    (match lookupDict objDict "product_name" with
     | some v => [("name", v)]
     | none => [])
    ++ (["description", "quantity", "unit", "expiry_date"].filterMap
        (fun f => (lookupDict objDict f).map (fun v => (f, v))))
  let withType ←
    match lookupDict objDict "product_type" with
    | none => pure base
    | some v =>
      match findLookupId s.productTypes v with
      | none => throw (CrudError.invalidProductType v)
      | some tid => pure (base ++ [("product_type_id", Value.vInt tid)])
  match lookupDict objDict "product_location" with
  | none => pure withType
  | some v =>
    match findLookupId s.productLocations v with
    | none => throw (CrudError.invalidProductLocation v)
    | some lid => pure (withType ++ [("product_location_id", Value.vInt lid)])

/-- A `ProductCreate` payload (product_schemas.py): all seven fields are
declared required (`Field(...)`), so a validated instance always carries
all of them. -/
structure ProductCreate where
  product_name : String
  description : String
  quantity : Int
  unit : String
  expiry_date : Int
  product_location : String
  product_type : String
  deriving Repr, DecidableEq

/-- A `ProductUpdate` payload: it subclasses `ProductBase` unchanged, so it
has the same seven required fields. -/
structure ProductUpdate where
  product_name : String
  description : String
  quantity : Int
  unit : String
  expiry_date : Int
  product_location : String
  product_type : String
  deriving Repr, DecidableEq

/-- `obj_in.model_dump(exclude_unset=True)` for a `ProductCreate` built
from a full request body: every field is set, so the dump contains all
seven keys in declaration order. -/
def productCreateDump (d : ProductCreate) : List (String × Value) :=
  [("product_name", Value.vStr d.product_name),
   ("description", Value.vStr d.description),
   ("quantity", Value.vInt d.quantity),
   ("unit", Value.vStr d.unit),
   ("expiry_date", Value.vInt d.expiry_date),
   ("product_location", Value.vStr d.product_location),
   ("product_type", Value.vStr d.product_type)]

/-- `obj_in.model_dump(exclude_unset=True)` for a `ProductUpdate` built
from a full request body. -/
def productUpdateDump (d : ProductUpdate) : List (String × Value) :=
  [("product_name", Value.vStr d.product_name),
   ("description", Value.vStr d.description),
   ("quantity", Value.vInt d.quantity),
   ("unit", Value.vStr d.unit),
   ("expiry_date", Value.vInt d.expiry_date),
   ("product_location", Value.vStr d.product_location),
   ("product_type", Value.vStr d.product_type)]

/-- A freshly constructed `Product()` object before any keyword is
assigned: every attribute unset (`None`). -/
def emptyProductRow : ProductRow :=
  { id := Value.vNone, name := Value.vNone, description := Value.vNone,
    quantity := Value.vNone, unit := Value.vNone, added_date := Value.vNone,
    expiration_date := Value.vNone, product_type_id := Value.vNone,
    product_location_id := Value.vNone }

/-- Embedding of the SQLAlchemy declarative constructor `Product(**kwargs)`:
for each keyword in order, if the class does not have that attribute raise
`TypeError("'k' is an invalid keyword argument for Product()")`, else
assign it. -/
def productInit (kwargs : List (String × Value)) : Except CrudError ProductRow :=
  kwargs.foldlM
    (fun r kv =>
      if productHasAttr kv.1 then pure (productSetAttr r kv.1 kv.2)
      else throw (CrudError.typeError kv.1))
    emptyProductRow

/-- Embedding of `CRUDProduct.encode_model` (product_crud.py, lines 53-61):
dump the draft, resolve scalar values, then construct
`Product(creation_date=datetime.now(...), image_location="file_path",
**scalar_values)`.  `now` stands for `datetime.now(tz=config.brussels_tz)`. -/
def encodeModel (draft : ProductCreate) (s : DBState) (now : Int) :
    Except CrudError ProductRow := do
  let objDict := productCreateDump draft
  let scalarValues ← collectScalarValues objDict s
  productInit ([("creation_date", Value.vInt now),
                ("image_location", Value.vStr "file_path")] ++ scalarValues)

/-- SQL check constraint `quantity >= 1` (db_models.py line 55); per SQL
semantics a CHECK only fails when it evaluates to FALSE, so a NULL operand
passes. -/
def sqlCheckQuantity (r : ProductRow) : Bool :=
  match r.quantity with
  | Value.vInt i => decide (1 ≤ i)
  | Value.vNone => true
  | Value.vStr _ => true

/-- SQL check constraint `unit IN ('g', 'boxes', 'bottles')` (db_models.py
lines 56-61); NULL passes. -/
def sqlCheckUnit (r : ProductRow) : Bool :=
  match r.unit with
  | Value.vStr u => ["g", "boxes", "bottles"].contains u
  | Value.vNone => true
  | Value.vInt _ => false

/-- SQL table-level check constraint `expiration_date > added_date`
(db_models.py lines 82-84); a NULL operand makes the comparison UNKNOWN,
which passes the CHECK. -/
def sqlCheckExpiration (r : ProductRow) : Bool :=
  match r.expiration_date, r.added_date with
  | Value.vInt e, Value.vInt a => decide (a < e)
  | _, _ => true

/-- All check constraints declared on the `product` table. -/
def productCheckOk (r : ProductRow) : Bool :=
  sqlCheckQuantity r && sqlCheckUnit r && sqlCheckExpiration r

/-- NOT NULL constraints of the `product` table: every column except the
explicitly nullable `added_date` and `expiration_date` (db_models.py lines
62-63). -/
def productNotNullOk (r : ProductRow) : Bool :=
  (r.name != Value.vNone) && (r.description != Value.vNone) &&
  (r.quantity != Value.vNone) && (r.unit != Value.vNone) &&
  (r.product_type_id != Value.vNone) && (r.product_location_id != Value.vNone)

/-- Storage-level INSERT into the `product` table, enforcing the DDL of
`db_models.Product`: NOT NULL columns, the UNIQUE constraint on `name`
(db_models.py line 53), and the CHECK constraints.  Foreign keys are not
enforced here (the application runs on SQLite, which leaves
`PRAGMA foreign_keys` off by default). -/
def insertProduct (tbl : List ProductRow) (r : ProductRow) :
    Except CrudError (List ProductRow) :=
  if !productNotNullOk r then throw (CrudError.integrityError "not_null")
  else if tbl.any (fun q => q.name == r.name) then
    throw (CrudError.integrityError "unique_name")
  else if !productCheckOk r then throw (CrudError.integrityError "check")
  else pure (tbl ++ [r])

/-- No two rows of a product table share a name. -/
def distinctNames (tbl : List ProductRow) : Prop :=
  tbl.Pairwise (fun a b => a.name ≠ b.name)

/-- Embedding of `CRUDBase.get` (base_crud.py lines 57-60):
`session.get(Product, row_id)`, a primary-key point lookup returning an
explicit absent signal. -/
def crudGet (s : DBState) (rowId : Int) : Option ProductRow :=
  s.products.find? (fun r => r.id == Value.vInt rowId)

/-- The update loop of `CRUDBase.update` (base_crud.py lines 135-137):
`for field, value in update_data.items(): if hasattr(db_obj, field):
setattr(db_obj, field, value)`. -/
def applyUpdate (r : ProductRow) (updateData : List (String × Value)) : ProductRow :=
  updateData.foldl
    (fun acc kv => if productHasAttr kv.1 then productSetAttr acc kv.1 kv.2 else acc)
    r

/-- Embedding of `CRUDBase.create` (base_crud.py lines 108-114) specialised
to the product CRUD: encode the draft, then `session.add` + `commit`, which
runs the INSERT (assigning the autoincrement id) under the table's DDL. -/
def crudCreate (s : DBState) (draft : ProductCreate) (now : Int) :
    Except CrudError (DBState × ProductRow) := do
  let dbObj ← encodeModel draft s now
  let row := { dbObj with id := Value.vInt s.nextProductId }
  let tbl ← insertProduct s.products row
  pure ({ s with products := tbl, nextProductId := s.nextProductId + 1 }, row)

/-- The state a caller observes after `create`: on an exception the raise
happens before `session.commit`, so the store is unchanged. -/
def createdState (s : DBState) (draft : ProductCreate) (now : Int) : DBState :=
  match crudCreate s draft now with
  | Except.ok p => p.1
  | Except.error _ => s

/-- The `session.commit()` of `CRUDBase.update`: SQLAlchemy flushes only
net attribute changes, so if every assignment left the row equal to its
loaded state no UPDATE statement is emitted and the commit is a no-op;
otherwise the emitted UPDATE runs under the `product` table's DDL — NOT
NULL columns, the UNIQUE constraint on `name` checked against every other
row, and the CHECK constraints — and a violation raises `IntegrityError`
with nothing persisted. -/
def commitUpdateRow (tbl : List ProductRow) (oldRow newObj : ProductRow) :
    Except CrudError (List ProductRow) :=
  if newObj == oldRow then pure tbl
  else if !productNotNullOk newObj then throw (CrudError.integrityError "not_null")
  else if tbl.any (fun q => !(q.id == oldRow.id) && q.name == newObj.name) then
    throw (CrudError.integrityError "unique_name")
  else if !productCheckOk newObj then throw (CrudError.integrityError "check")
  else pure (tbl.map (fun q => if q.id == oldRow.id then newObj else q))

/-- Embedding of `CRUDBase.update` (base_crud.py lines 125-144) at the
generic-engine level: `update_data` is the encoded partial-change
dictionary (`encode_update_model` of the base class is
`model_dump(exclude_unset=True)`, i.e. exactly the supplied fields);
`session.commit()` enforces the table DDL on the updated row. -/
def crudBaseUpdate (s : DBState) (rowId : Int) (updateData : List (String × Value)) :
    Except CrudError (DBState × ProductRow) :=
  match crudGet s rowId with
  | none => throw CrudError.noResultFound
  | some dbObj =>
    let newObj := applyUpdate dbObj updateData
    match commitUpdateRow s.products dbObj newObj with
    | Except.error e => throw e
    | Except.ok tbl2 => pure ({ s with products := tbl2 }, newObj)

/-- Embedding of `CRUDBase.update` specialised by
`CRUDProduct.encode_update_model` (product_crud.py lines 63-67): the
update dictionary is `_collect_scalar_values` of the dumped payload;
`session.commit()` enforces the table DDL on the updated row. -/
def productCrudUpdate (s : DBState) (rowId : Int) (objIn : ProductUpdate) :
    Except CrudError (DBState × ProductRow) := do
  match crudGet s rowId with
  | none => throw CrudError.noResultFound
  | some dbObj => do
    let updateData ← collectScalarValues (productUpdateDump objIn) s
    let newObj := applyUpdate dbObj updateData
    match commitUpdateRow s.products dbObj newObj with
    | Except.error e => throw e
    | Except.ok tbl2 => pure ({ s with products := tbl2 }, newObj)

/-- The `order_by` enumeration `OrderByEnum` (base_enums.py lines 38-44):
the fixed set of allowed ordering options. -/
inductive OrderByEnum where
  | id
  | name
  | creation_date
  | expiry_date
  deriving Repr, DecidableEq

/-- The `.value` string of each `OrderByEnum` member. -/
def OrderByEnum.val : OrderByEnum → String
  | OrderByEnum.id => "id"
  | OrderByEnum.name => "name"
  | OrderByEnum.creation_date => "creation_date"
  | OrderByEnum.expiry_date => "expiry_date"

/-- Embedding of `CRUDBase._get_order_by_expression` (base_crud.py lines
62-74): raise `ModelNotHavingAttributeError(model_name, attribute)` when
`hasattr(self.model, order_by.value)` is false, otherwise return the
column expression, here represented by the column name and direction. -/
def getOrderByExpression (orderBy : String) (ascending : Bool) :
    Except CrudError (String × Bool) :=
  if productHasAttr orderBy then pure (orderBy, ascending)
  else throw (CrudError.modelNotHavingAttribute "Product" orderBy)

/-- Total order on `Value` used to interpret SQL `ORDER BY` on a column:
NULLs first, integers before strings, each compared naturally. -/
def valueLeB : Value → Value → Bool
  | Value.vNone, _ => true
  | Value.vInt _, Value.vNone => false
  | Value.vInt a, Value.vInt b => decide (a ≤ b)
  | Value.vInt _, Value.vStr _ => true
  | Value.vStr _, Value.vNone => false
  | Value.vStr _, Value.vInt _ => false
  | Value.vStr a, Value.vStr b => decide (a < b) || a == b

/-- Row comparison induced by an order-by expression. -/
def rowLeB (key : String) (ascending : Bool) (a b : ProductRow) : Bool :=
  let va := (productGetAttr a key).getD Value.vNone
  let vb := (productGetAttr b key).getD Value.vNone
  if ascending then valueLeB va vb else valueLeB vb va

/-- Insert a row into a list sorted by `le`, after all rows it does not
precede (stable insertion). -/
def insertSorted (le : ProductRow → ProductRow → Bool) (x : ProductRow) :
    List ProductRow → List ProductRow
  | [] => [x]
  | y :: ys => if le y x then y :: insertSorted le x ys else x :: y :: ys

/-- Sort the table rows for the `ORDER BY` clause of the page query. -/
def sortRows (le : ProductRow → ProductRow → Bool) (l : List ProductRow) :
    List ProductRow :=
  l.foldr (insertSorted le) []

/-- The `PaginatedResponse` dataclass (base_crud.py lines 23-30). -/
structure PaginatedResponse where
  data : List ProductRow
  total : Nat
  offset : Nat
  limit : Nat
  deriving Repr, DecidableEq

/-- Embedding of `CRUDBase.get_multi_paginated` (base_crud.py lines
76-102): validate the order field, run the page query (`ORDER BY` /
`OFFSET` / `LIMIT`), and compute `total` with an independent unfiltered
`COUNT` over the base model. -/
def getMultiPaginated (s : DBState) (offset limit : Nat)
    (ascending : Bool) (orderBy : OrderByEnum) :
    Except CrudError PaginatedResponse := do
  let expr ← getOrderByExpression orderBy.val ascending
  let sorted := sortRows (rowLeB expr.1 expr.2) s.products
  pure { data := (sorted.drop offset).take limit,
         total := s.products.length,
         offset := offset,
         limit := limit }

/-- Route-layer failures: an `HTTPException` with status 404 raised by the
dependencies, or a domain error propagated from the CRUD layer. -/
inductive RouteError where
  | notFound404 (detail : String)
  | appError (e : CrudError)
  deriving Repr, DecidableEq

/-- Embedding of the `PATCH /inventory/update` handler
(inventory_routes.py lines 81-98) with its `ProductDependency`
(`get_db_product`, product_dependencies.py lines 17-24): the dependency
404s when the id is unknown, then the handler calls `product_crud.update`.
No other validation runs on this path: the route does not use
`ValidatedProductUpdateDependency`, so `get_validated_product_for_update`
(and the `validate_against_existing_product` call inside it, a method
`ProductUpdate` does not define) is never invoked. -/
def routeUpdateProduct (s : DBState) (productId : Int) (body : ProductUpdate) :
    Except RouteError (DBState × ProductRow) :=
  match crudGet s productId with
  | none => throw (RouteError.notFound404 "Product not found in the database.")
  | some _ =>
    match productCrudUpdate s productId body with
    | Except.ok p => pure p
    | Except.error e => throw (RouteError.appError e)

/-- The required fields of the `ProductUpdate` request schema: it inherits
`ProductBase` (product_schemas.py lines 44-83), whose seven fields are all
declared with `Field(...)`, i.e. required. -/
def productUpdateRequiredFields : List String :=
  ["product_name", "description", "quantity", "unit", "expiry_date",
   "product_location", "product_type"]

/-- Pydantic validation of an update request body against the required
fields of `ProductUpdate`: a body is accepted only if every required field
is present (a missing required field is a validation error raised before
the endpoint code runs). -/
def productUpdateBodyAccepted (body : List (String × Value)) : Bool :=
  productUpdateRequiredFields.all (fun f => (body.map Prod.fst).contains f)

/-! Concrete scenario data used to evaluate the embedded operations. -/

/-- Seeded product types (names are free-form seed data; the enum values in
the source carry emoji suffixes, which are irrelevant to the lookups). -/
def seedTypes : List LookupRow :=
  [{ id := 1, name := "fruit" }, { id := 2, name := "dairy" }]

/-- Seeded product locations. -/
def seedLocations : List LookupRow :=
  [{ id := 1, name := "refrigerator" }, { id := 2, name := "big freezer" }]

/-- A stored product row (with both date columns populated, to observe
whether updates touch them). -/
def sampleRow : ProductRow :=
  { id := Value.vInt 1, name := Value.vStr "Cheddar",
    description := Value.vStr "Matured cheddar",
    quantity := Value.vInt 2, unit := Value.vStr "g",
    added_date := Value.vInt 50, expiration_date := Value.vInt 100,
    product_type_id := Value.vInt 2, product_location_id := Value.vInt 1 }

/-- A store holding one product. -/
def sampleState : DBState :=
  { productTypes := seedTypes, productLocations := seedLocations,
    products := [sampleRow], nextProductId := 2 }

/-- A store holding no products. -/
def emptyProductsState : DBState :=
  { productTypes := seedTypes, productLocations := seedLocations,
    products := [], nextProductId := 1 }

/-- A valid product draft whose lookup names both resolve. -/
def validDraft : ProductCreate :=
  { product_name := "Peaches", description := "Juicy yellow peaches",
    quantity := 3, unit := "boxes", expiry_date := 200,
    product_location := "refrigerator", product_type := "fruit" }

/-- An update payload whose `expiry_date` (10) is earlier than the stored
row's dates (50 / 100). -/
def earlyExpiryUpdate : ProductUpdate :=
  { product_name := "Cheddar", description := "Matured cheddar cheese",
    quantity := 5, unit := "g", expiry_date := 10,
    product_location := "big freezer", product_type := "dairy" }

/-- The row the PATCH handler actually commits for `earlyExpiryUpdate`:
`description`, `quantity` and `product_location_id` are applied, while the
supplied `expiry_date` is dropped (the model has no such attribute) and
both date columns keep their stored values. -/
def updatedSampleRow : ProductRow :=
  { sampleRow with
      description := Value.vStr "Matured cheddar cheese",
      quantity := Value.vInt 5,
      product_location_id := Value.vInt 2 }

/-- The store after the PATCH of `earlyExpiryUpdate` onto `sampleState`. -/
def sampleStateAfterUpdate : DBState :=
  { sampleState with products := [updatedSampleRow] }

/-- A row whose NOT NULL columns are populated and whose nullable date
columns are NULL — exactly the column values a product ends up with when
the write path assigns only `creation_date` / `expiry_date`, names that
are not columns of the `product` table. -/
def nullDatesRow : ProductRow :=
  { id := Value.vInt 7, name := Value.vStr "Yogurt",
    description := Value.vStr "Plain yogurt",
    quantity := Value.vInt 1, unit := Value.vStr "g",
    added_date := Value.vNone, expiration_date := Value.vNone,
    product_type_id := Value.vInt 2, product_location_id := Value.vInt 1 }

/-- Rows used by the uniqueness witness: two distinct products sharing the
name "Apples". -/
def appleRowA : ProductRow :=
  { id := Value.vInt 1, name := Value.vStr "Apples",
    description := Value.vStr "Green apples",
    quantity := Value.vInt 4, unit := Value.vStr "g",
    added_date := Value.vNone, expiration_date := Value.vNone,
    product_type_id := Value.vInt 1, product_location_id := Value.vInt 1 }

/-- A second draft row reusing the stored name "Apples". -/
def appleRowB : ProductRow :=
  { id := Value.vInt 2, name := Value.vStr "Apples",
    description := Value.vStr "Red apples",
    quantity := Value.vInt 1, unit := Value.vStr "boxes",
    added_date := Value.vNone, expiration_date := Value.vNone,
    product_type_id := Value.vInt 1, product_location_id := Value.vInt 2 }

/-- Boolean success test for `Except` results. -/
def exceptIsOk {ε α : Type} : Except ε α → Bool
  | Except.ok _ => true
  | Except.error _ => false

/-- Update dictionary mirroring the `NoisyCrud` test: one real field and
one key the model does not have. -/
def noisyUpdateData : List (String × Value) :=
  [("description", Value.vStr "Updated description"),
   ("nonexistent", Value.vStr "ignored")]

/-- A draft whose product type name has no row in `seedTypes`. -/
def unknownTypeDraft : ProductCreate :=
  { validDraft with product_type := "poultry" }

/-- A draft whose location name has no row in `seedLocations`. -/
def unknownLocationDraft : ProductCreate :=
  { validDraft with product_location := "basement" }

/-- An update request body with every required field except `unit`. -/
def missingUnitBody : List (String × Value) :=
  [("product_name", Value.vStr "Cheddar"), ("description", Value.vStr "d"),
   ("quantity", Value.vInt 1), ("expiry_date", Value.vInt 5),
   ("product_location", Value.vStr "refrigerator"),
   ("product_type", Value.vStr "dairy")]

/-! Helper lemmas about attribute assignment and the update loop. -/

theorem setAttr_id (r : ProductRow) (f : String) (v : Value) (h : f ≠ "id") :
    (productSetAttr r f v).id = r.id := by
  unfold productSetAttr; split_ifs <;> simp_all

theorem setAttr_name (r : ProductRow) (f : String) (v : Value) (h : f ≠ "name") :
    (productSetAttr r f v).name = r.name := by
  unfold productSetAttr; split_ifs <;> simp_all

theorem setAttr_description (r : ProductRow) (f : String) (v : Value)
    (h : f ≠ "description") :
    (productSetAttr r f v).description = r.description := by
  unfold productSetAttr; split_ifs <;> simp_all

theorem setAttr_quantity (r : ProductRow) (f : String) (v : Value)
    (h : f ≠ "quantity") :
    (productSetAttr r f v).quantity = r.quantity := by
  unfold productSetAttr; split_ifs <;> simp_all

theorem setAttr_unit (r : ProductRow) (f : String) (v : Value) (h : f ≠ "unit") :
    (productSetAttr r f v).unit = r.unit := by
  unfold productSetAttr; split_ifs <;> simp_all

theorem setAttr_added_date (r : ProductRow) (f : String) (v : Value)
    (h : f ≠ "added_date") :
    (productSetAttr r f v).added_date = r.added_date := by
  unfold productSetAttr; split_ifs <;> simp_all

theorem setAttr_expiration_date (r : ProductRow) (f : String) (v : Value)
    (h : f ≠ "expiration_date") :
    (productSetAttr r f v).expiration_date = r.expiration_date := by
  unfold productSetAttr; split_ifs <;> simp_all

theorem setAttr_product_type_id (r : ProductRow) (f : String) (v : Value)
    (h : f ≠ "product_type_id") :
    (productSetAttr r f v).product_type_id = r.product_type_id := by
  unfold productSetAttr; split_ifs <;> simp_all

theorem setAttr_product_location_id (r : ProductRow) (f : String) (v : Value)
    (h : f ≠ "product_location_id") :
    (productSetAttr r f v).product_location_id = r.product_location_id := by
  unfold productSetAttr; split_ifs <;> simp_all

theorem productGetAttr_setAttr_ne (r : ProductRow) (f g : String) (v : Value)
    (h : f ≠ g) :
    productGetAttr (productSetAttr r f v) g = productGetAttr r g := by
  by_cases h1 : g = "id"
  · subst h1
    show some (productSetAttr r f v).id = some r.id
    rw [setAttr_id r f v h]
  by_cases h2 : g = "name"
  · subst h2
    show some (productSetAttr r f v).name = some r.name
    rw [setAttr_name r f v h]
  by_cases h3 : g = "description"
  · subst h3
    show some (productSetAttr r f v).description = some r.description
    rw [setAttr_description r f v h]
  by_cases h4 : g = "quantity"
  · subst h4
    show some (productSetAttr r f v).quantity = some r.quantity
    rw [setAttr_quantity r f v h]
  by_cases h5 : g = "unit"
  · subst h5
    show some (productSetAttr r f v).unit = some r.unit
    rw [setAttr_unit r f v h]
  by_cases h6 : g = "added_date"
  · subst h6
    show some (productSetAttr r f v).added_date = some r.added_date
    rw [setAttr_added_date r f v h]
  by_cases h7 : g = "expiration_date"
  · subst h7
    show some (productSetAttr r f v).expiration_date = some r.expiration_date
    rw [setAttr_expiration_date r f v h]
  by_cases h8 : g = "product_type_id"
  · subst h8
    show some (productSetAttr r f v).product_type_id = some r.product_type_id
    rw [setAttr_product_type_id r f v h]
  by_cases h9 : g = "product_location_id"
  · subst h9
    show some (productSetAttr r f v).product_location_id = some r.product_location_id
    rw [setAttr_product_location_id r f v h]
  unfold productGetAttr
  simp only [if_neg h1, if_neg h2, if_neg h3, if_neg h4, if_neg h5, if_neg h6,
    if_neg h7, if_neg h8, if_neg h9]

theorem applyUpdate_cons (r : ProductRow) (kv : String × Value)
    (t : List (String × Value)) :
    applyUpdate r (kv :: t) =
      applyUpdate (if productHasAttr kv.1 then productSetAttr r kv.1 kv.2 else r) t :=
  rfl

theorem applyUpdate_frame (d : List (String × Value)) (r : ProductRow) (g : String)
    (h : ∀ kv ∈ d, kv.1 ≠ g) :
    productGetAttr (applyUpdate r d) g = productGetAttr r g := by
  induction d generalizing r with
  | nil => rfl
  | cons kv t ih =>
    rw [applyUpdate_cons, ih _ (fun x hx => h x (List.mem_cons_of_mem kv hx))]
    split
    · exact productGetAttr_setAttr_ne r kv.1 g kv.2 (h kv (List.mem_cons_self kv t))
    · rfl

theorem applyUpdate_unknown (d : List (String × Value)) (r : ProductRow)
    (h : ∀ kv ∈ d, productHasAttr kv.1 = false) :
    applyUpdate r d = r := by
  induction d generalizing r with
  | nil => rfl
  | cons kv t ih =>
    rw [applyUpdate_cons, if_neg (by simp [h kv (List.mem_cons_self kv t)])]
    exact ih r (fun x hx => h x (List.mem_cons_of_mem kv hx))

theorem applyUpdate_filter_known (d : List (String × Value)) (r : ProductRow) :
    applyUpdate r (d.filter (fun kv => productHasAttr kv.1)) = applyUpdate r d := by
  induction d generalizing r with
  | nil => rfl
  | cons kv t ih =>
    rw [List.filter_cons]
    by_cases hkv : productHasAttr kv.1
    · rw [if_pos (by simp [hkv]), applyUpdate_cons, applyUpdate_cons, ih]
    · rw [if_neg (by simp [hkv]), applyUpdate_cons r kv t,
        if_neg (by simp [hkv]), ih]

theorem findLookupId_eq_none (rows : List LookupRow) (nm : String)
    (h : ∀ t ∈ rows, t.name ≠ nm) :
    findLookupId rows (Value.vStr nm) = none := by
  unfold findLookupId
  rw [List.find?_eq_none.mpr]
  · rfl
  · intro t ht
    simp only [beq_iff_eq, Value.vStr.injEq]
    exact h t ht

theorem collect_dump_type_missing (draft : ProductCreate) (s : DBState)
    (h : findLookupId s.productTypes (Value.vStr draft.product_type) = none) :
    collectScalarValues (productCreateDump draft) s =
      Except.error (CrudError.invalidProductType (Value.vStr draft.product_type)) := by
  simp [collectScalarValues, productCreateDump, lookupDict, h,
    throw, throwThe, MonadExceptOf.throw, Bind.bind, Except.bind]

theorem collect_dump_location_missing (draft : ProductCreate) (s : DBState)
    (tid : Int)
    (h1 : findLookupId s.productTypes (Value.vStr draft.product_type) = some tid)
    (h2 : findLookupId s.productLocations (Value.vStr draft.product_location) = none) :
    collectScalarValues (productCreateDump draft) s =
      Except.error (CrudError.invalidProductLocation (Value.vStr draft.product_location)) := by
  simp [collectScalarValues, productCreateDump, lookupDict, h1, h2,
    throw, throwThe, MonadExceptOf.throw, Bind.bind, Except.bind, pure, Except.pure]

/-! Claim theorems. -/

/-- C1: the claim says every valid draft can be created and read back with
the draft's fields plus a server id and creation timestamp.  The code
cannot create any product: `CRUDProduct.encode_model` constructs
`Product(creation_date=..., image_location=..., ...)`, and the `Product`
model has no `creation_date` attribute, so the declarative constructor
raises `TypeError` on every call and nothing is persisted. -/
theorem c1_create_always_raises_type_error :
    crudCreate emptyProductsState validDraft 0 =
      Except.error (CrudError.typeError "creation_date")
    ∧ (createdState emptyProductsState validDraft 0).products = []
    ∧ productHasAttr "creation_date" = false :=
  ⟨rfl, rfl, rfl⟩

/-- C2: the claim says an update whose `expiry_date` is not later than the
stored creation date fails with `InvalidExpiryDateError` and leaves the
row unmodified.  On the code's update path no such validation runs: the
PATCH succeeds (status 200), the supplied `expiry_date` (10, earlier than
the stored dates 50/100) is silently dropped because the model has no
`expiry_date` attribute, and the other supplied fields are committed. -/
theorem c2_update_never_raises_expiry_error :
    routeUpdateProduct sampleState 1 earlyExpiryUpdate =
      Except.ok (sampleStateAfterUpdate, updatedSampleRow)
    ∧ updatedSampleRow.expiration_date = sampleRow.expiration_date
    ∧ updatedSampleRow.added_date = sampleRow.added_date
    ∧ earlyExpiryUpdate.expiry_date = 10
    ∧ sampleRow.added_date = Value.vInt 50
    ∧ updatedSampleRow.quantity = Value.vInt 5 :=
  ⟨rfl, rfl, rfl, rfl, rfl, rfl⟩

/-- C4: the claim says every member of the `order_by` enumeration is a
recognized order field.  `id` and `name` are; `creation_date` and
`expiry_date` are not attributes of the `Product` model (its columns are
`added_date` / `expiration_date`), so listing with either raises
`ModelNotHavingAttributeError("Product", field)`. -/
theorem c4_order_by_enum_partly_unrecognized :
    getOrderByExpression (OrderByEnum.val OrderByEnum.id) false = Except.ok ("id", false)
    ∧ getOrderByExpression (OrderByEnum.val OrderByEnum.name) true = Except.ok ("name", true)
    ∧ getOrderByExpression (OrderByEnum.val OrderByEnum.creation_date) false =
        Except.error (CrudError.modelNotHavingAttribute "Product" "creation_date")
    ∧ getOrderByExpression (OrderByEnum.val OrderByEnum.expiry_date) false =
        Except.error (CrudError.modelNotHavingAttribute "Product" "expiry_date")
    ∧ getMultiPaginated sampleState 0 10 false OrderByEnum.creation_date =
        Except.error (CrudError.modelNotHavingAttribute "Product" "creation_date") :=
  ⟨rfl, rfl, rfl, rfl, rfl⟩

/-- C5: `CRUDBase.update` applies exactly the supplied fields.  With the
row present, the stored result is `applyUpdate` of the old row (modulo the
DDL the commit enforces, whose outcome — success or `IntegrityError` — is
exactly `commitUpdateRow`'s); an empty dictionary changes nothing and
succeeds; any attribute no key mentions keeps its prior value; and keys
the model does not have are silently dropped — filtering them out of the
dictionary leaves the whole operation's outcome unchanged, and a
dictionary of only unknown keys is a successful no-op, never a failure. -/
theorem c5_generic_update_sparse_semantics
    (s : DBState) (rowId : Int) (d : List (String × Value)) (r : ProductRow)
    (h : crudGet s rowId = some r) :
    (∀ tbl2, commitUpdateRow s.products r (applyUpdate r d) = Except.ok tbl2 →
        crudBaseUpdate s rowId d = Except.ok ({ s with products := tbl2 }, applyUpdate r d))
    ∧ (∀ e, commitUpdateRow s.products r (applyUpdate r d) = Except.error e →
        crudBaseUpdate s rowId d = Except.error e)
    ∧ crudBaseUpdate s rowId [] = Except.ok (s, r)
    ∧ (∀ g : String, (∀ kv ∈ d, kv.1 ≠ g) →
        productGetAttr (applyUpdate r d) g = productGetAttr r g)
    ∧ crudBaseUpdate s rowId (d.filter (fun kv => productHasAttr kv.1)) =
        crudBaseUpdate s rowId d
    ∧ ((∀ kv ∈ d, productHasAttr kv.1 = false) →
        crudBaseUpdate s rowId d = Except.ok (s, r)) := by
  refine ⟨?_, ?_, ?_, ?_, ?_, ?_⟩
  · intro tbl2 hc
    simp [crudBaseUpdate, h, hc, pure, Except.pure]
  · intro e hc
    simp [crudBaseUpdate, h, hc, throw, throwThe, MonadExceptOf.throw]
  · simp [crudBaseUpdate, h, commitUpdateRow, applyUpdate, pure, Except.pure]
  · intro g hg
    exact applyUpdate_frame d r g hg
  · simp [crudBaseUpdate, h, applyUpdate_filter_known]
  · intro hk
    simp [crudBaseUpdate, h, commitUpdateRow, applyUpdate_unknown d r hk,
      pure, Except.pure]

/-- Witness for C5 at a concrete store and a dictionary containing one
known and one unknown field. -/
theorem c5_generic_update_sparse_semantics_witness :
    crudGet sampleState 1 = some sampleRow
    ∧ ((∀ tbl2, commitUpdateRow sampleState.products sampleRow
            (applyUpdate sampleRow noisyUpdateData) = Except.ok tbl2 →
        crudBaseUpdate sampleState 1 noisyUpdateData =
          Except.ok ({ sampleState with products := tbl2 },
            applyUpdate sampleRow noisyUpdateData))
      ∧ (∀ e, commitUpdateRow sampleState.products sampleRow
            (applyUpdate sampleRow noisyUpdateData) = Except.error e →
          crudBaseUpdate sampleState 1 noisyUpdateData = Except.error e)
      ∧ crudBaseUpdate sampleState 1 [] = Except.ok (sampleState, sampleRow)
      ∧ (∀ g : String, (∀ kv ∈ noisyUpdateData, kv.1 ≠ g) →
          productGetAttr (applyUpdate sampleRow noisyUpdateData) g =
            productGetAttr sampleRow g)
      ∧ crudBaseUpdate sampleState 1
            (noisyUpdateData.filter (fun kv => productHasAttr kv.1)) =
          crudBaseUpdate sampleState 1 noisyUpdateData
      ∧ ((∀ kv ∈ noisyUpdateData, productHasAttr kv.1 = false) →
          crudBaseUpdate sampleState 1 noisyUpdateData =
            Except.ok (sampleState, sampleRow))) :=
  ⟨rfl, c5_generic_update_sparse_semantics sampleState 1 noisyUpdateData sampleRow rfl⟩

/-- C7: creating a draft whose product type name has no stored row fails
with `InvalidProductTypeError` carrying the offending value, and creating
one whose type resolves but whose location name has no stored row fails
with `InvalidProductLocationError`; in both cases the raise happens before
`session.add`/`commit`, so the product table is unchanged. -/
theorem c7_create_unknown_lookup_fails_without_persisting
    (s : DBState) (draft : ProductCreate) (now : Int) :
    ((∀ t ∈ s.productTypes, t.name ≠ draft.product_type) →
      crudCreate s draft now =
          Except.error (CrudError.invalidProductType (Value.vStr draft.product_type))
        ∧ (createdState s draft now).products = s.products)
    ∧ (∀ tid : Int,
        findLookupId s.productTypes (Value.vStr draft.product_type) = some tid →
        (∀ l ∈ s.productLocations, l.name ≠ draft.product_location) →
        crudCreate s draft now =
            Except.error (CrudError.invalidProductLocation (Value.vStr draft.product_location))
          ∧ (createdState s draft now).products = s.products) := by
  constructor
  · intro ht
    have hc := collect_dump_type_missing draft s
      (findLookupId_eq_none s.productTypes draft.product_type ht)
    have hcr : crudCreate s draft now =
        Except.error (CrudError.invalidProductType (Value.vStr draft.product_type)) := by
      simp [crudCreate, encodeModel, hc, Bind.bind, Except.bind]
    exact ⟨hcr, by simp [createdState, hcr]⟩
  · intro tid htid hl
    have hc := collect_dump_location_missing draft s tid htid
      (findLookupId_eq_none s.productLocations draft.product_location hl)
    have hcr : crudCreate s draft now =
        Except.error (CrudError.invalidProductLocation (Value.vStr draft.product_location)) := by
      simp [crudCreate, encodeModel, hc, Bind.bind, Except.bind]
    exact ⟨hcr, by simp [createdState, hcr]⟩

/-- Witness for C7: a type name and a location name absent from the seeded
lookup tables. -/
theorem c7_create_unknown_lookup_fails_without_persisting_witness :
    (crudCreate emptyProductsState unknownTypeDraft 0 =
        Except.error (CrudError.invalidProductType (Value.vStr "poultry"))
      ∧ (createdState emptyProductsState unknownTypeDraft 0).products =
          emptyProductsState.products)
    ∧ (crudCreate emptyProductsState unknownLocationDraft 0 =
        Except.error (CrudError.invalidProductLocation (Value.vStr "basement"))
      ∧ (createdState emptyProductsState unknownLocationDraft 0).products =
          emptyProductsState.products) :=
  ⟨(c7_create_unknown_lookup_fails_without_persisting emptyProductsState
      unknownTypeDraft 0).1 (by decide),
   (c7_create_unknown_lookup_fails_without_persisting emptyProductsState
      unknownLocationDraft 0).2 1 rfl (by decide)⟩

/-- C9: the `product.name` column is declared UNIQUE, so an INSERT reusing
a stored name is rejected (nothing is persisted), and a table whose names
are pairwise distinct keeps that property across every successful INSERT. -/
theorem c9_product_name_unique
    (tbl : List ProductRow) (r q : ProductRow)
    (hq : q ∈ tbl) (hname : q.name = r.name) (hdist : distinctNames tbl) :
    exceptIsOk (insertProduct tbl r) = false
    ∧ (∀ r2 tbl2, insertProduct tbl r2 = Except.ok tbl2 → distinctNames tbl2) := by
  constructor
  · have hany : tbl.any (fun x => x.name == r.name) = true :=
      List.any_eq_true.mpr ⟨q, hq, by simp [hname]⟩
    cases hnn : productNotNullOk r <;>
      simp [insertProduct, hnn, hany, exceptIsOk, throw, throwThe, MonadExceptOf.throw]
  · intro r2 tbl2 h
    unfold insertProduct at h
    split_ifs at h with h1 h2 h3
    · have htbl : tbl ++ [r2] = tbl2 := by
        simpa [pure, Except.pure] using h
      subst htbl
      unfold distinctNames
      rw [List.pairwise_append]
      refine ⟨hdist, List.pairwise_singleton _ _, ?_⟩
      intro a ha b hb
      rw [List.mem_singleton] at hb
      subst hb
      intro heq
      exact h2 (List.any_eq_true.mpr ⟨a, ha, by simp [heq]⟩)

/-- Witness for C9: inserting a second "Apples" row fails; inserting into
the singleton table preserves name distinctness. -/
theorem c9_product_name_unique_witness :
    appleRowA ∈ [appleRowA] ∧ appleRowA.name = appleRowB.name
    ∧ distinctNames [appleRowA]
    ∧ (exceptIsOk (insertProduct [appleRowA] appleRowB) = false
      ∧ (∀ r2 tbl2, insertProduct [appleRowA] r2 = Except.ok tbl2 → distinctNames tbl2)) :=
  ⟨List.mem_cons_self appleRowA [], rfl, List.pairwise_singleton _ _,
   c9_product_name_unique [appleRowA] appleRowB appleRowA
     (List.mem_cons_self appleRowA []) rfl (List.pairwise_singleton _ _)⟩

/-- C10: the `ProductUpdate` request schema declares all seven product
fields required, so a body missing any of them fails schema validation
before the data-access layer runs, while a body supplying all of them
passes the required-field check. -/
theorem c10_update_schema_requires_full_field_set
    (body : List (String × Value)) (f : String)
    (hf : f ∈ productUpdateRequiredFields)
    (hmiss : (body.map Prod.fst).contains f = false) :
    productUpdateBodyAccepted body = false
    ∧ (∀ b2 : List (String × Value),
        (∀ g ∈ productUpdateRequiredFields, (b2.map Prod.fst).contains g = true) →
        productUpdateBodyAccepted b2 = true) := by
  constructor
  · have hne : ¬ (productUpdateRequiredFields.all
        (fun x => (body.map Prod.fst).contains x) = true) := by
      rw [List.all_eq_true]
      intro hall
      have hft := hall f hf
      rw [hmiss] at hft
      exact Bool.noConfusion hft
    unfold productUpdateBodyAccepted
    exact Bool.eq_false_iff.mpr hne
  · intro b2 hb2
    unfold productUpdateBodyAccepted
    rw [List.all_eq_true]
    exact hb2

/-- Witness for C10: a body omitting `unit` is rejected. -/
theorem c10_update_schema_requires_full_field_set_witness :
    "unit" ∈ productUpdateRequiredFields
    ∧ (missingUnitBody.map Prod.fst).contains "unit" = false
    ∧ (productUpdateBodyAccepted missingUnitBody = false
      ∧ (∀ b2 : List (String × Value),
          (∀ g ∈ productUpdateRequiredFields, (b2.map Prod.fst).contains g = true) →
          productUpdateBodyAccepted b2 = true)) :=
  ⟨by decide, rfl,
   c10_update_schema_requires_full_field_set missingUnitBody "unit" (by decide) rfl⟩

/-- C8: the claim says every persisted product row satisfies
expiry-strictly-after-creation, quantity ≥ 1 and a valid unit, enforced at
the storage layer.  The quantity and unit checks are declared, but the
cross-column CHECK guards `expiration_date > added_date` — two nullable
columns the write path never populates (it assigns `creation_date` /
`expiry_date`, which are not columns of the model) — so storage accepts a
row with no expiry/creation ordering at all. -/
theorem c8_expiry_ordering_not_enforced_by_storage :
    insertProduct [] nullDatesRow = Except.ok [nullDatesRow]
    ∧ productCheckOk nullDatesRow = true
    ∧ nullDatesRow.added_date = Value.vNone
    ∧ nullDatesRow.expiration_date = Value.vNone
    ∧ productHasAttr "creation_date" = false
    ∧ productHasAttr "expiry_date" = false :=
  ⟨rfl, rfl, rfl, rfl, rfl, rfl⟩

end FridgeApp
